import Mathlib

/-!
Shallow embedding of the completion-port bridge core of this repository:
the buffer pool (`skinny::sys::BufferPool` in `src/poll.rs`), the
selector-identity guard (`SelectorId` in `src/poll.rs`), the pool accessors
`skinny::sys::get_buffer` / `put_buffer`, and the `Evented` implementations
of `UnixStream` (`src/stream.rs`) and `UnixListener` (`src/listener.rs`).

Conventions of the embedding:
* A Rust `Vec<u8>` buffer is modelled by its observable shape: an allocation
  identity (which heap allocation backs it), its length and its capacity.
  Byte contents play no role in any property below.
* The pool's backing `Vec<Vec<u8>>` is created with `Vec::with_capacity(cap)`
  and is only ever pushed while `len < capacity`, so its capacity stays `cap`
  for its whole lifetime; we carry that constant as the field `cap`.
  The stack is a list whose head is the `Vec`'s end (push = cons, pop = head),
  which realizes the same LIFO discipline.
* Stateful Rust code becomes explicit state passing: each operation takes the
  state and returns the result paired with the successor state.  Calls into
  the external system layer (`self.sys.*`, whose outcome the kernel decides)
  take that outcome as an explicit `Except` argument and are recorded in a
  log of forwarded system calls, so that "the guard error is returned without
  invoking the underlying system registration" is visible in the model.
* For the claims about cell sharing (`Clone for SelectorId` builds a fresh
  `AtomicUsize`, not a shared one) the atomic cell is modelled explicitly: a
  heap of cells addressed by index, allocation appending a new cell.
-/

/-- Error values surfaced by the embedded operations.  `alreadyAssociated`
stands for `io::Error::new(Other, "socket already registered")` produced by
`SelectorId::associate_selector`; `sysErr` stands for an arbitrary error
propagated from the external system layer. -/
inductive IoError
| alreadyAssociated
| sysErr (code : Nat)
deriving DecidableEq, Repr

/-- Observable shape of a Rust `Vec<u8>` buffer: which allocation backs it,
its current length and its capacity. -/
structure Buffer where
  alloc : Nat
  len : Nat
  cap : Nat
deriving DecidableEq, Repr

/-- `skinny::sys::BufferPool` (src/poll.rs lines 36-56): a stack of buffers
plus the fixed capacity of the backing `Vec` (see the header comment for why
it is constant). -/
structure BufferPool where
  pool : List Buffer
  cap : Nat
deriving DecidableEq, Repr

namespace BufferPool

/-- `BufferPool::new(cap)` (src/poll.rs line 42): an empty pool whose backing
vector reserves `cap` slots. -/
def new (cap : Nat) : BufferPool :=
  { pool := [], cap := cap }

/-- `BufferPool::get(default_cap)` (src/poll.rs lines 46-48):
`self.pool.pop().unwrap_or_else(|| Vec::with_capacity(default_cap))`.
`freshAlloc` is the identity of the allocation the global allocator would
hand out for the fresh `Vec` in the `unwrap_or_else` branch. -/
def get (p : BufferPool) (default_cap : Nat) (freshAlloc : Nat) :
    Buffer × BufferPool :=
  match p.pool with
  | b :: rest => (b, { p with pool := rest })
  | [] => ({ alloc := freshAlloc, len := 0, cap := default_cap }, p)

/-- `BufferPool::put(buf)` (src/poll.rs lines 50-55): if the pool's length is
below its capacity, set the buffer's length to 0 and push it; otherwise drop
the buffer. -/
def put (p : BufferPool) (buf : Buffer) : BufferPool :=
  if p.pool.length < p.cap then
    { p with pool := { buf with len := 0 } :: p.pool }
  else
    p

end BufferPool

/-- A call on the buffer pool, for stating invariants over arbitrary call
sequences: `get` carries its capacity hint and the allocator's fresh
allocation identity, `put` carries the buffer handed back. -/
inductive PoolOp
| get (hint : Nat) (freshAlloc : Nat)
| put (buf : Buffer)
deriving DecidableEq, Repr

/-- State reached by one pool call (the value returned by `get` is dropped;
only the pool state matters for the invariant). -/
def PoolOp.apply (p : BufferPool) : PoolOp → BufferPool
| .get hint freshAlloc => (p.get hint freshAlloc).2
| .put buf => p.put buf

/-- Pool state after running a whole sequence of calls. -/
def runPoolOps (p : BufferPool) (ops : List PoolOp) : BufferPool :=
  ops.foldl PoolOp.apply p

/-- `skinny::sys::get_buffer` (src/poll.rs lines 88-93): if the binding's lazy
selector cell holds a selector, take a buffer from that selector's pool
(mutating it); if the cell is empty, allocate `Vec::with_capacity(size)`.
The binding's cell is modelled by `Option BufferPool`: the pool of the
associated selector, or `none` when never associated. -/
def get_buffer (binding : Option BufferPool) (size : Nat) (freshAlloc : Nat) :
    Buffer × Option BufferPool :=
  match binding with
  | some p => let (buf, p') := p.get size freshAlloc; (buf, some p')
  | none => ({ alloc := freshAlloc, len := 0, cap := size }, none)

/-- `skinny::sys::put_buffer` (src/poll.rs lines 95-99): if the binding's lazy
selector cell holds a selector, return the buffer to that selector's pool;
if the cell is empty, the buffer is silently dropped. -/
def put_buffer (binding : Option BufferPool) (buf : Buffer) :
    Option BufferPool :=
  match binding with
  | some p => some (p.put buf)
  | none => none

namespace SelectorId

/-- `SelectorId::new` (src/poll.rs lines 125-129): the stored identity starts
at 0, meaning "not associated with any selector". -/
def new : Nat := 0

/-- `SelectorId::associate_selector` (src/poll.rs lines 131-141), value view:
given the currently stored identity and the poll's selector identity, either
reject (stored id non-zero and different from the poll's) leaving the cell
untouched, or store the poll's identity.  Returns the new stored value. -/
def associate_selector (stored pollId : Nat) : Except IoError Nat :=
  if stored ≠ 0 ∧ stored ≠ pollId then
    .error .alreadyAssociated
  else
    .ok pollId

end SelectorId

/-- A heap of `AtomicUsize` cells: the value of cell `a` is the `a`-th entry;
allocating appends a fresh cell.  Used to model which cell a `SelectorId`
owns, so that "clone is a value copy, not a shared cell" is expressible. -/
def Heap : Type := List Nat

namespace Heap

/-- Allocate a cell holding `v`; returns its address and the new heap. -/
def alloc (h : Heap) (v : Nat) : Nat × Heap :=
  (List.length h, List.append h [v])

/-- Read the cell at address `a` (0 for a dangling address). -/
def read : Heap → Nat → Nat
  | [], _ => 0
  | v :: _, 0 => v
  | _ :: h, a + 1 => read h a

/-- Write `v` into the cell at address `a` (no effect on a dangling address). -/
def write : Heap → Nat → Nat → Heap
  | [], _, _ => []
  | _ :: h, 0, v => v :: h
  | x :: h, a + 1, v => x :: write h a v

end Heap

namespace SelectorId

/-- `SelectorId::new` on the cell heap: allocate a fresh `AtomicUsize` cell
holding 0 and return its address. -/
def newCell (h : Heap) : Nat × Heap :=
  h.alloc 0

/-- `Clone for SelectorId` (src/poll.rs lines 144-150): load the current
value and put it into a freshly allocated `AtomicUsize` cell — a value copy
into a new cell, never sharing the original cell. -/
def cloneCell (h : Heap) (a : Nat) : Nat × Heap :=
  h.alloc (h.read a)

/-- `SelectorId::associate_selector` acting on the cell heap: load the stored
identity from cell `a`, and on success store the poll's identity back. -/
def associateCell (h : Heap) (a : Nat) (pollId : Nat) : Except IoError Heap :=
  match associate_selector (h.read a) pollId with
  | .error e => .error e
  | .ok v => .ok (h.write a v)

end SelectorId

/-- One call forwarded to the external system layer by the `Evented`
implementations (`self.sys.register/reregister/deregister`).  Arguments
`pollId`, `token`, `interest`, `opts` are carried abstractly as numbers. -/
inductive SysOp
| sysRegister (pollId token interest opts : Nat)
| sysReregister (pollId token interest opts : Nat)
| sysDeregister (pollId : Nat)
deriving DecidableEq, Repr

/-- The state of a handle that the `Evented` implementation can observe and
change: the stored selector identity of its `SelectorId`, and the log of
calls it forwarded to the system layer. -/
structure HandleSt where
  selId : Nat
  sysOps : List SysOp
deriving DecidableEq, Repr

namespace UnixStream

/-- `<UnixStream as Evented>::register` (src/stream.rs lines 419-423):
`self.selector_id.associate_selector(poll)?; self.sys.register(...)`.
On guard rejection the error propagates via `?` and the system layer is never
called; on guard success the stored identity is updated, the system call is
forwarded, and its outcome `sysRes` (decided externally) is returned. -/
def register (st : HandleSt) (pollId token interest opts : Nat)
    (sysRes : Except IoError Unit) : Except IoError Unit × HandleSt :=
  match SelectorId.associate_selector st.selId pollId with
  | .error e => (.error e, st)
  | .ok v =>
      (sysRes,
       { selId := v,
         sysOps := st.sysOps ++ [.sysRegister pollId token interest opts] })

/-- `<UnixStream as Evented>::reregister` (src/stream.rs lines 425-428):
forwards directly to `self.sys.reregister(...)`; the selector-identity guard
is neither consulted nor updated. -/
def reregister (st : HandleSt) (pollId token interest opts : Nat)
    (sysRes : Except IoError Unit) : Except IoError Unit × HandleSt :=
  (sysRes,
   { st with sysOps := st.sysOps ++ [.sysReregister pollId token interest opts] })

/-- `<UnixStream as Evented>::deregister` (src/stream.rs lines 430-432):
forwards directly to `self.sys.deregister(poll)`; the stored selector
identity is not touched. -/
def deregister (st : HandleSt) (pollId : Nat)
    (sysRes : Except IoError Unit) : Except IoError Unit × HandleSt :=
  (sysRes, { st with sysOps := st.sysOps ++ [.sysDeregister pollId] })

end UnixStream

namespace UnixListener

/-- `<UnixListener as Evented>::register` (src/listener.rs lines 210-214):
textually the same body as the stream's implementation. -/
def register (st : HandleSt) (pollId token interest opts : Nat)
    (sysRes : Except IoError Unit) : Except IoError Unit × HandleSt :=
  match SelectorId.associate_selector st.selId pollId with
  | .error e => (.error e, st)
  | .ok v =>
      (sysRes,
       { selId := v,
         sysOps := st.sysOps ++ [.sysRegister pollId token interest opts] })

/-- `<UnixListener as Evented>::reregister` (src/listener.rs lines 216-219):
forwards directly to `self.sys.reregister(...)`. -/
def reregister (st : HandleSt) (pollId token interest opts : Nat)
    (sysRes : Except IoError Unit) : Except IoError Unit × HandleSt :=
  (sysRes,
   { st with sysOps := st.sysOps ++ [.sysReregister pollId token interest opts] })

/-- `<UnixListener as Evented>::deregister` (src/listener.rs lines 221-223):
forwards directly to `self.sys.deregister(poll)`. -/
def deregister (st : HandleSt) (pollId : Nat)
    (sysRes : Except IoError Unit) : Except IoError Unit × HandleSt :=
  (sysRes, { st with sysOps := st.sysOps ++ [.sysDeregister pollId] })

end UnixListener

/-- A `UnixStream` value as built by its constructors: the opaque system
handle (abstract number) and its stored selector identity. -/
structure UnixStreamV where
  sys : Nat
  selId : Nat
deriving DecidableEq, Repr

/-- `UnixStream::from_stream` (src/stream.rs lines 120-127): puts the raw
stream into non-blocking mode (an external call whose outcome is the
argument `nonblockRes`) and wraps it with a fresh `SelectorId::new()`,
whose stored identity is 0. -/
def UnixStream.from_stream (rawStream : Nat) (nonblockRes : Except IoError Unit) :
    Except IoError UnixStreamV :=
  match nonblockRes with
  | .error e => .error e
  | .ok _ => .ok { sys := rawStream, selId := SelectorId.new }

/-- `UnixStream::try_clone` (src/stream.rs lines 145-152): clone the system
handle (an external call whose outcome is `sysRes`, yielding the raw cloned
handle) and clone the `SelectorId`: a freshly allocated cell holding a
snapshot of the current stored identity.  Returns the pair (raw handle,
address of the clone's cell) together with the heap after the allocation. -/
def UnixStream.try_clone (h : Heap) (a : Nat) (sysRes : Except IoError Nat) :
    Except IoError ((Nat × Nat) × Heap) :=
  match sysRes with
  | .error e => .error e
  | .ok s =>
      let (b, h') := SelectorId.cloneCell h a
      .ok ((s, b), h')

/-- `UnixListener::accept` (src/listener.rs lines 128-131): on success of the
system accept (`accept_std`, outcome `sysAccept`: a raw stream and the peer
address, both abstract), wrap the raw stream via `UnixStream::from_stream`
and return it with the peer address. -/
def UnixListener.accept (sysAccept : Except IoError (Nat × Nat))
    (nonblockRes : Except IoError Unit) : Except IoError (UnixStreamV × Nat) :=
  match sysAccept with
  | .error e => .error e
  | .ok (s, a) =>
      match UnixStream.from_stream s nonblockRes with
      | .error e => .error e
      | .ok stream => .ok (stream, a)

/-! ### Helper lemmas (shared; not claim theorems) -/

theorem Heap.read_append_left (h : Heap) (t : List Nat) (a : Nat)
    (ha : a < List.length h) :
    Heap.read (List.append h t) a = Heap.read h a := by
  induction h generalizing a with
  | nil => simp at ha
  | cons x xs ih =>
    cases a with
    | zero => rfl
    | succ n =>
      have : n < List.length xs := by simpa using ha
      simpa [Heap.read] using ih n this

theorem Heap.read_append_fresh (h : Heap) (v : Nat) :
    Heap.read (List.append h [v]) (List.length h) = v := by
  induction h with
  | nil => rfl
  | cons x xs ih => simpa [Heap.read] using ih

theorem Heap.read_write_ne (h : Heap) (a b v : Nat) (hab : a ≠ b) :
    Heap.read (Heap.write h a v) b = Heap.read h b := by
  induction h generalizing a b with
  | nil => rfl
  | cons x xs ih =>
    cases a with
    | zero =>
      cases b with
      | zero => exact absurd rfl hab
      | succ m => rfl
    | succ n =>
      cases b with
      | zero => rfl
      | succ m =>
        have : n ≠ m := fun he => hab (by simp [he])
        simpa [Heap.write, Heap.read] using ih n m this

theorem poolInv_apply {cap : Nat} {p : BufferPool} (op : PoolOp)
    (hc : p.cap = cap) (hl : p.pool.length ≤ cap)
    (hz : ∀ b ∈ p.pool, b.len = 0) :
    (PoolOp.apply p op).cap = cap
    ∧ (PoolOp.apply p op).pool.length ≤ cap
    ∧ ∀ b ∈ (PoolOp.apply p op).pool, b.len = 0 := by
  cases op with
  | get hint fresh =>
    cases hp : p.pool with
    | nil =>
      simp only [PoolOp.apply, BufferPool.get, hp]
      exact ⟨hc, by rw [hp] at hl; exact hl, by rw [hp] at hz; exact hz⟩
    | cons b rest =>
      rw [hp] at hl hz
      simp only [PoolOp.apply, BufferPool.get, hp]
      refine ⟨hc, ?_, ?_⟩
      · simp only [List.length_cons] at hl
        omega
      · intro x hx
        exact hz x (List.mem_cons_of_mem _ hx)
  | put buf =>
    by_cases hlt : p.pool.length < p.cap
    · simp only [PoolOp.apply, BufferPool.put, if_pos hlt]
      refine ⟨hc, ?_, ?_⟩
      · simp only [List.length_cons]
        rw [hc] at hlt
        omega
      · intro x hx
        rcases List.mem_cons.mp hx with hx | hx
        · rw [hx]
        · exact hz x hx
    · simp only [PoolOp.apply, BufferPool.put, if_neg hlt]
      exact ⟨hc, hl, hz⟩

theorem poolInv_run (cap : Nat) (ops : List PoolOp) (p : BufferPool)
    (hc : p.cap = cap) (hl : p.pool.length ≤ cap)
    (hz : ∀ b ∈ p.pool, b.len = 0) :
    (runPoolOps p ops).cap = cap
    ∧ (runPoolOps p ops).pool.length ≤ cap
    ∧ ∀ b ∈ (runPoolOps p ops).pool, b.len = 0 := by
  induction ops generalizing p with
  | nil => exact ⟨hc, hl, hz⟩
  | cons op rest ih =>
    have h' := poolInv_apply op hc hl hz
    simpa [runPoolOps] using ih _ h'.1 h'.2.1 h'.2.2

theorem SelectorId.associate_selector_ok {stored pollId : Nat}
    (h : stored = 0 ∨ stored = pollId) :
    SelectorId.associate_selector stored pollId = .ok pollId := by
  unfold SelectorId.associate_selector
  rcases h with h | h <;> simp [h]

theorem SelectorId.associate_selector_err {stored pollId : Nat}
    (h1 : stored ≠ 0) (h2 : stored ≠ pollId) :
    SelectorId.associate_selector stored pollId = .error .alreadyAssociated := by
  unfold SelectorId.associate_selector
  rw [if_pos ⟨h1, h2⟩]

theorem UnixStream.register_ok (st : HandleSt) (pollId token interest opts : Nat)
    (sysRes : Except IoError Unit) (h : st.selId = 0 ∨ st.selId = pollId) :
    UnixStream.register st pollId token interest opts sysRes
      = (sysRes,
         { selId := pollId,
           sysOps := st.sysOps ++ [.sysRegister pollId token interest opts] }) := by
  unfold UnixStream.register
  rw [SelectorId.associate_selector_ok h]

theorem UnixStream.register_err (st : HandleSt) (pollId token interest opts : Nat)
    (sysRes : Except IoError Unit) (h1 : st.selId ≠ 0) (h2 : st.selId ≠ pollId) :
    UnixStream.register st pollId token interest opts sysRes
      = (.error .alreadyAssociated, st) := by
  unfold UnixStream.register
  rw [SelectorId.associate_selector_err h1 h2]

/-! ### Claim theorems -/

/-- Claim C1: for a handle starting unassociated, registering with selector
`idA` (non-zero, as selector identities are) succeeds and stores `idA`;
a subsequent register with a different selector `idB` fails with the
AlreadyAssociated error; a second register with `idA` succeeds, is forwarded
to the system layer, and leaves the stored identity at `idA` (a no-op with
respect to the identity).  The listener's implementation coincides with the
stream's, and in general `SelectorId::associate_selector` errors exactly
when the stored id is non-zero and differs from the poll's id. -/
theorem C1_register_guard (st : HandleSt)
    (idA idB token interest opts stored pollId : Nat)
    (sysRes : Except IoError Unit) (stAny : HandleSt)
    (h0 : st.selId = 0) (hA : idA ≠ 0) (hAB : idA ≠ idB) :
    (UnixStream.register st idA token interest opts (.ok ())).1 = .ok ()
    ∧ (UnixStream.register st idA token interest opts (.ok ())).2.selId = idA
    ∧ (UnixStream.register (UnixStream.register st idA token interest opts
        (.ok ())).2 idB token interest opts sysRes).1 = .error .alreadyAssociated
    ∧ (UnixStream.register (UnixStream.register st idA token interest opts
        (.ok ())).2 idA token interest opts sysRes).1 = sysRes
    ∧ (UnixStream.register (UnixStream.register st idA token interest opts
        (.ok ())).2 idA token interest opts sysRes).2.selId = idA
    ∧ UnixListener.register stAny pollId token interest opts sysRes
        = UnixStream.register stAny pollId token interest opts sysRes
    ∧ (SelectorId.associate_selector stored pollId = .error .alreadyAssociated
        ↔ stored ≠ 0 ∧ stored ≠ pollId) := by
  have hst1 := UnixStream.register_ok st idA token interest opts (.ok ())
    (Or.inl h0)
  refine ⟨?_, ?_, ?_, ?_, ?_, rfl, ?_⟩
  · rw [hst1]
  · rw [hst1]
  · rw [hst1, UnixStream.register_err _ idB token interest opts sysRes hA hAB]
  · rw [hst1, UnixStream.register_ok _ idA token interest opts sysRes
      (Or.inr rfl)]
  · rw [hst1, UnixStream.register_ok _ idA token interest opts sysRes
      (Or.inr rfl)]
  · by_cases hcond : stored ≠ 0 ∧ stored ≠ pollId
    · rw [SelectorId.associate_selector_err hcond.1 hcond.2]
      simpa using hcond
    · rw [SelectorId.associate_selector_ok (by tauto)]
      simp [hcond]

/-- Claim C1, witness: the guard scenario at selector identities 1 and 2,
starting from the unassociated handle state. -/
theorem C1_register_guard_witness :
    (UnixStream.register ⟨0, []⟩ 1 0 0 0 (.ok ())).1 = .ok ()
    ∧ (UnixStream.register ⟨0, []⟩ 1 0 0 0 (.ok ())).2.selId = 1
    ∧ (UnixStream.register (UnixStream.register ⟨0, []⟩ 1 0 0 0
        (.ok ())).2 2 0 0 0 (.ok ())).1 = .error .alreadyAssociated
    ∧ (UnixStream.register (UnixStream.register ⟨0, []⟩ 1 0 0 0
        (.ok ())).2 1 0 0 0 (.ok ())).1 = .ok ()
    ∧ (UnixStream.register (UnixStream.register ⟨0, []⟩ 1 0 0 0
        (.ok ())).2 1 0 0 0 (.ok ())).2.selId = 1
    ∧ UnixListener.register ⟨0, []⟩ 1 0 0 0 (.ok ())
        = UnixStream.register ⟨0, []⟩ 1 0 0 0 (.ok ())
    ∧ (SelectorId.associate_selector 3 1 = .error .alreadyAssociated
        ↔ 3 ≠ 0 ∧ 3 ≠ 1) :=
  C1_register_guard ⟨0, []⟩ 1 2 0 0 0 3 1 (.ok ()) ⟨0, []⟩ rfl
    (by decide) (by decide)

/-- Claim C3, counterexample to the claim as stated: deregistering does not
lift the association.  Register the handle with selector 1, deregister it,
then register with selector 2: the call still fails with the
AlreadyAssociated error, because deregister never clears the stored
selector identity. -/
theorem C3_counterexample :
    (UnixStream.register
        (UnixStream.deregister
          (UnixStream.register ⟨0, []⟩ 1 0 0 0 (.ok ())).2 1 (.ok ())).2
        2 0 0 0 (.ok ())).1 = .error .alreadyAssociated := rfl

/-- Claim C3 (amended): deregister forwards to the system layer but leaves
the stored selector identity untouched, for both handle types.  Hence after
register with selector `idA` and a deregister, a register with a different
selector `idB` still fails with AlreadyAssociated; only registering with
`idA` itself can succeed.  The deregister-first recovery the claim
describes does not exist in this code. -/
theorem C3_deregister_keeps_identity (st stAny : HandleSt)
    (idA idB token interest opts pollIdAny : Nat)
    (res sysRes resAny : Except IoError Unit)
    (h0 : st.selId = 0) (hA : idA ≠ 0) (hAB : idA ≠ idB) :
    (UnixStream.deregister stAny pollIdAny resAny).2.selId = stAny.selId
    ∧ (UnixListener.deregister stAny pollIdAny resAny).2.selId = stAny.selId
    ∧ (UnixStream.register
        (UnixStream.deregister
          (UnixStream.register st idA token interest opts (.ok ())).2
          idA res).2
        idB token interest opts sysRes).1 = .error .alreadyAssociated
    ∧ (UnixStream.register
        (UnixStream.deregister
          (UnixStream.register st idA token interest opts (.ok ())).2
          idA res).2
        idA token interest opts sysRes).1 = sysRes := by
  have hst1 := UnixStream.register_ok st idA token interest opts (.ok ())
    (Or.inl h0)
  refine ⟨rfl, rfl, ?_, ?_⟩
  · rw [hst1, UnixStream.register_err _ idB token interest opts sysRes hA hAB]
  · rw [hst1, UnixStream.register_ok _ idA token interest opts sysRes
      (Or.inr rfl)]

/-- Claim C3 amended, witness: the scenario at selector identities 1 and 2
with concrete states and system outcomes. -/
theorem C3_deregister_keeps_identity_witness :
    (UnixStream.deregister ⟨5, []⟩ 9 (.ok ())).2.selId = (⟨5, []⟩ : HandleSt).selId
    ∧ (UnixListener.deregister ⟨5, []⟩ 9 (.ok ())).2.selId = (⟨5, []⟩ : HandleSt).selId
    ∧ (UnixStream.register
        (UnixStream.deregister
          (UnixStream.register ⟨0, []⟩ 1 0 0 0 (.ok ())).2 1 (.ok ())).2
        2 0 0 0 (.ok ())).1 = .error .alreadyAssociated
    ∧ (UnixStream.register
        (UnixStream.deregister
          (UnixStream.register ⟨0, []⟩ 1 0 0 0 (.ok ())).2 1 (.ok ())).2
        1 0 0 0 (.ok ())).1 = .ok () :=
  C3_deregister_keeps_identity ⟨0, []⟩ ⟨5, []⟩ 1 2 0 0 0 9 (.ok ()) (.ok ())
    (.ok ()) rfl (by decide) (by decide)

/-- Claim C5: when the guard rejects (stored identity non-zero and different
from the poll's), `register` returns the AlreadyAssociated error and the
handle state is returned exactly as it was — the stored identity is
unchanged and no call is forwarded to the system layer (so no selector or
buffer-pool state can be touched).  Holds for both handle types, and
`associate_selector` itself reports the rejection. -/
theorem C5_rejected_register_changes_nothing (st : HandleSt)
    (pollId token interest opts : Nat) (sysRes : Except IoError Unit)
    (h1 : st.selId ≠ 0) (h2 : st.selId ≠ pollId) :
    UnixStream.register st pollId token interest opts sysRes
      = (.error .alreadyAssociated, st)
    ∧ UnixListener.register st pollId token interest opts sysRes
      = (.error .alreadyAssociated, st)
    ∧ SelectorId.associate_selector st.selId pollId
      = .error .alreadyAssociated := by
  refine ⟨UnixStream.register_err st pollId token interest opts sysRes h1 h2,
    ?_, SelectorId.associate_selector_err h1 h2⟩
  unfold UnixListener.register
  rw [SelectorId.associate_selector_err h1 h2]

/-- Claim C5, witness: a handle bound to selector 1 rejects a register with
selector 2 without any state change. -/
theorem C5_rejected_register_changes_nothing_witness :
    UnixStream.register ⟨1, []⟩ 2 0 0 0 (.ok ())
      = (.error .alreadyAssociated, ⟨1, []⟩)
    ∧ UnixListener.register ⟨1, []⟩ 2 0 0 0 (.ok ())
      = (.error .alreadyAssociated, ⟨1, []⟩)
    ∧ SelectorId.associate_selector (⟨1, []⟩ : HandleSt).selId 2
      = .error .alreadyAssociated :=
  C5_rejected_register_changes_nothing ⟨1, []⟩ 2 0 0 0 (.ok ())
    (by decide) (by decide)

/-- Claim C7: a successful `UnixListener::accept` returns the peer address
delivered by the system accept together with a stream wrapped by
`UnixStream::from_stream`, whose fresh `SelectorId` stores 0 (unassociated);
consequently the accepted stream can be registered with any selector,
including one different from the listener's. -/
theorem C7_accept_yields_unassociated_stream
    (sysAccept : Except IoError (Nat × Nat)) (nonblockRes : Except IoError Unit)
    (stream : UnixStreamV) (addr pollId : Nat)
    (hok : UnixListener.accept sysAccept nonblockRes = .ok (stream, addr)) :
    stream.selId = 0
    ∧ SelectorId.associate_selector stream.selId pollId = .ok pollId
    ∧ sysAccept = .ok (stream.sys, addr) := by
  cases sysAccept with
  | error e => exact absurd hok (by simp [UnixListener.accept])
  | ok p =>
    obtain ⟨s, a⟩ := p
    cases nonblockRes with
    | error e =>
      exact absurd hok (by simp [UnixListener.accept, UnixStream.from_stream])
    | ok u =>
      have hok' : (Except.ok ({ sys := s, selId := SelectorId.new }, a) :
          Except IoError (UnixStreamV × Nat)) = .ok (stream, addr) := hok
      injection hok' with hpair
      have h1 : ({ sys := s, selId := SelectorId.new } : UnixStreamV) = stream :=
        congrArg Prod.fst hpair
      have h2 : a = addr := congrArg Prod.snd hpair
      subst h1
      subst h2
      exact ⟨rfl, SelectorId.associate_selector_ok (Or.inl rfl), rfl⟩

/-- Claim C7, witness: accepting raw stream 42 from peer address 7 yields
the stream value with stored identity 0, registrable with selector 9. -/
theorem C7_accept_yields_unassociated_stream_witness :
    (⟨42, 0⟩ : UnixStreamV).selId = 0
    ∧ SelectorId.associate_selector (⟨42, 0⟩ : UnixStreamV).selId 9 = .ok 9
    ∧ (.ok (42, 7) : Except IoError (Nat × Nat))
        = .ok ((⟨42, 0⟩ : UnixStreamV).sys, 7) :=
  C7_accept_yields_unassociated_stream (.ok (42, 7)) (.ok ()) ⟨42, 0⟩ 7 9 rfl

/-- Claim C6: `try_clone` (on system-layer success) clones the `SelectorId`
into a freshly allocated cell holding a snapshot of the original's current
value, and the two cells are independent afterwards: associating the clone
with a selector leaves the original's stored identity unchanged, and
associating the original leaves the clone's stored identity unchanged. -/
theorem C6_clone_is_value_copy (h : Heap) (a pollId sysHandle : Nat)
    (h1 h2 : Heap) (ha : a < List.length h)
    (hok1 : SelectorId.associateCell (SelectorId.cloneCell h a).2
        (SelectorId.cloneCell h a).1 pollId = .ok h1)
    (hok2 : SelectorId.associateCell (SelectorId.cloneCell h a).2 a pollId
        = .ok h2) :
    UnixStream.try_clone h a (.ok sysHandle)
      = .ok ((sysHandle, (SelectorId.cloneCell h a).1),
             (SelectorId.cloneCell h a).2)
    ∧ Heap.read (SelectorId.cloneCell h a).2 (SelectorId.cloneCell h a).1
        = Heap.read h a
    ∧ Heap.read (SelectorId.cloneCell h a).2 a = Heap.read h a
    ∧ Heap.read h1 a = Heap.read h a
    ∧ Heap.read h2 (SelectorId.cloneCell h a).1
        = Heap.read (SelectorId.cloneCell h a).2 (SelectorId.cloneCell h a).1 := by
  have hfst : (SelectorId.cloneCell h a).1 = List.length h := rfl
  have hne : (SelectorId.cloneCell h a).1 ≠ a := by
    rw [hfst]
    omega
  have hsnap : Heap.read (SelectorId.cloneCell h a).2 (SelectorId.cloneCell h a).1
      = Heap.read h a := by
    simpa [SelectorId.cloneCell, Heap.alloc]
      using Heap.read_append_fresh h (Heap.read h a)
  have hold : Heap.read (SelectorId.cloneCell h a).2 a = Heap.read h a := by
    simpa [SelectorId.cloneCell, Heap.alloc]
      using Heap.read_append_left h [Heap.read h a] a ha
  refine ⟨rfl, hsnap, hold, ?_, ?_⟩
  · unfold SelectorId.associateCell at hok1
    split at hok1
    · exact absurd hok1 (by simp)
    · injection hok1 with hh
      subst hh
      rw [Heap.read_write_ne _ _ _ _ hne]
      exact hold
  · unfold SelectorId.associateCell at hok2
    split at hok2
    · exact absurd hok2 (by simp)
    · injection hok2 with hh
      subst hh
      rw [Heap.read_write_ne _ _ _ _ (Ne.symm hne)]

/-- Claim C6, witness: on the one-cell heap holding 0, cloning cell 0
allocates cell 1 with value 0; associating either cell with selector 3
writes only that cell, leaving the other's value at 0. -/
theorem C6_clone_is_value_copy_witness :
    UnixStream.try_clone [0] 0 (.ok 4)
      = .ok ((4, (SelectorId.cloneCell [0] 0).1), (SelectorId.cloneCell [0] 0).2)
    ∧ Heap.read (SelectorId.cloneCell [0] 0).2 (SelectorId.cloneCell [0] 0).1
        = Heap.read [0] 0
    ∧ Heap.read (SelectorId.cloneCell [0] 0).2 0 = Heap.read [0] 0
    ∧ Heap.read [0, 3] 0 = Heap.read [0] 0
    ∧ Heap.read [3, 0] (SelectorId.cloneCell [0] 0).1
        = Heap.read (SelectorId.cloneCell [0] 0).2 (SelectorId.cloneCell [0] 0).1 :=
  C6_clone_is_value_copy [0] 0 3 4 [0, 3] [3, 0] (by decide) rfl rfl

/-- Claim C2, counterexample to the claim as stated: `BufferPool::get(h)`
does not always return a buffer of capacity at least `h`.  Starting from
`BufferPool::new(2)`, putting a buffer of capacity 1 and then calling
`get(5)` pops that buffer back out with capacity 1, which is smaller than
the hint 5. -/
theorem C2_counterexample :
    ((BufferPool.put (BufferPool.new 2)
        { alloc := 7, len := 3, cap := 1 }).get 5 0).1.cap < 5 := by
  decide

/-- Claim C2 (amended): `BufferPool::get` never fails; on any pool whose
stored buffers all have length zero (the invariant established by `put`),
the returned buffer has length zero.  When the pool is empty the buffer is
freshly allocated with capacity exactly the hint; when the pool is nonempty
the pooled buffer is returned exactly as stored (its capacity is its own
and may be smaller than the hint — `get` performs no reshaping). -/
theorem C2_get_zero_length (p : BufferPool) (hint freshAlloc : Nat)
    (b : Buffer) (rest : List Buffer)
    (hz : ∀ x ∈ p.pool, x.len = 0) :
    (p.get hint freshAlloc).1.len = 0
    ∧ (p.pool = [] →
        (p.get hint freshAlloc).1 = { alloc := freshAlloc, len := 0, cap := hint })
    ∧ (p.pool = b :: rest →
        p.get hint freshAlloc = (b, { p with pool := rest })) := by
  refine ⟨?_, ?_, ?_⟩
  · cases hp : p.pool with
    | nil => simp [BufferPool.get, hp]
    | cons x xs =>
      have hx : x.len = 0 := hz x (by rw [hp]; exact List.mem_cons_self x xs)
      simp [BufferPool.get, hp, hx]
  · intro hp
    simp [BufferPool.get, hp]
  · intro hp
    simp [BufferPool.get, hp]

/-- Claim C2 amended, witness: on the concrete pool holding one stored
buffer of capacity 1 and length 0, `get 5` returns that buffer unchanged
(length 0), and on the empty pool `get` allocates fresh with capacity 5. -/
theorem C2_get_zero_length_witness :
    (BufferPool.get { pool := [{ alloc := 7, len := 0, cap := 1 }], cap := 2 } 5 0).1.len = 0
    ∧ (({ pool := [{ alloc := 7, len := 0, cap := 1 }], cap := 2 } : BufferPool).pool = [] →
        (BufferPool.get { pool := [{ alloc := 7, len := 0, cap := 1 }], cap := 2 } 5 0).1
          = { alloc := 0, len := 0, cap := 5 })
    ∧ (({ pool := [{ alloc := 7, len := 0, cap := 1 }], cap := 2 } : BufferPool).pool
          = { alloc := 7, len := 0, cap := 1 } :: [] →
        BufferPool.get { pool := [{ alloc := 7, len := 0, cap := 1 }], cap := 2 } 5 0
          = ({ alloc := 7, len := 0, cap := 1 },
             { pool := [], cap := 2 })) :=
  C2_get_zero_length { pool := [{ alloc := 7, len := 0, cap := 1 }], cap := 2 } 5 0
    { alloc := 7, len := 0, cap := 1 } [] (by decide)

/-- Claim C4: along every sequence of `get`/`put` calls starting from
`BufferPool::new(cap)`, the pool holds at most `cap` buffers (`put` pushes
only while the pool's length is below the backing vector's reserved
capacity) and every stored buffer has length zero. -/
theorem C4_pool_invariant (cap : Nat) (ops : List PoolOp) :
    (runPoolOps (BufferPool.new cap) ops).pool.length ≤ cap
    ∧ ∀ b ∈ (runPoolOps (BufferPool.new cap) ops).pool, b.len = 0 := by
  have h := poolInv_run cap ops (BufferPool.new cap)
    rfl (by simp [BufferPool.new]) (by simp [BufferPool.new])
  exact ⟨h.2.1, h.2.2⟩

/-- Claim C8: the pool is a bounded stack with a put/get round trip.  If the
pool's length is strictly below its bound, `put(b)` followed immediately by
`get(h)` (any hint `h`) returns exactly the buffer `b` — same allocation,
same capacity — with its length reset to zero, and the pool returns to its
previous state. -/
theorem C8_put_get_roundtrip (p : BufferPool) (b : Buffer)
    (hint freshAlloc : Nat) (hlt : p.pool.length < p.cap) :
    (p.put b).get hint freshAlloc = ({ b with len := 0 }, p) := by
  simp [BufferPool.put, BufferPool.get, if_pos hlt]

/-- Claim C8, witness: on the empty pool of bound 1, putting the buffer
with allocation 3, length 4, capacity 8 and then getting with hint 2
returns that same allocation with capacity 8 and length 0, restoring the
empty pool. -/
theorem C8_put_get_roundtrip_witness :
    ((BufferPool.new 1).put { alloc := 3, len := 4, cap := 8 }).get 2 0
      = ({ alloc := 3, len := 0, cap := 8 }, BufferPool.new 1) :=
  C8_put_get_roundtrip (BufferPool.new 1) { alloc := 3, len := 4, cap := 8 } 2 0
    (by decide)

/-- Claim C9: `reregister` bypasses the selector-identity guard entirely,
for both handle types.  For every handle state — including one whose stored
identity is non-zero and different from the poll's — the call is forwarded
directly to the system layer, its outcome is returned unchanged, and the
stored identity is neither consulted nor updated. -/
theorem C9_reregister_bypasses_guard (st : HandleSt)
    (pollId token interest opts : Nat) (sysRes : Except IoError Unit) :
    UnixStream.reregister st pollId token interest opts sysRes
      = (sysRes,
         { st with sysOps := st.sysOps
             ++ [.sysReregister pollId token interest opts] })
    ∧ (UnixStream.reregister st pollId token interest opts sysRes).2.selId
        = st.selId
    ∧ UnixListener.reregister st pollId token interest opts sysRes
        = UnixStream.reregister st pollId token interest opts sysRes := by
  exact ⟨rfl, rfl, rfl⟩

/-- Claim C10: on a binding whose lazy selector cell is empty,
`skinny::sys::get_buffer(binding, size)` returns a freshly allocated buffer
of length zero and capacity exactly `size` and leaves the cell empty, and
`skinny::sys::put_buffer(binding, buf)` silently discards the buffer and
changes nothing. -/
theorem C10_empty_binding (size freshAlloc : Nat) (b : Buffer) :
    (get_buffer none size freshAlloc).1.len = 0
    ∧ (get_buffer none size freshAlloc).1.cap = size
    ∧ (get_buffer none size freshAlloc).1.alloc = freshAlloc
    ∧ (get_buffer none size freshAlloc).2 = none
    ∧ put_buffer none b = none := by
  exact ⟨rfl, rfl, rfl, rfl, rfl⟩
